import Mathlib

/-!
Verification development for the track/race-rules subsystem of the
top-down drift-racing game (track.js): geometry predicates, the layout
randomizers, the ordered-checkpoint race state machine with lap timing
and penalty timing, and the turret trigger/force subsystem.

Modelling conventions.
JavaScript numbers are modelled as exact rationals; the turret tick
module uses reals because the force values it computes genuinely contain
square roots (Math.hypot).  A rectangle's rotation angle is carried as
the pair (cos a, sin a), which is everything getCorners reads from it.
Math.hypot(dx, dy) only ever feeds comparisons against radii in the
randomizers, so those comparisons are expressed in the equivalent
square-free form (hypot dx dy < r iff 0 < r and dx^2 + dy^2 < r^2,
since hypot is nonnegative).  Math.random() streams are parameters: each
randomizer takes the stream of sampled candidates it would have drawn.
Collision callbacks (onCheckpoint, onLap, onWallHit, onPad) are modelled
as an output list of Callback values, and Matter.Body.applyForce as an
output list of AppliedForce values.
-/

namespace Track

/-! ## Geometry utilities (track.js part: helpers before randomizeTrackLayout_) -/

/-- A rotated rectangle as handled by rectsOverlap and the obstacle
randomizer: centre, size, and the rotation angle represented by the pair
(ca, sa) = (cos a, sin a), which is exactly what the source's getCorners
computes from the stored angle. -/
structure Rect where
  x : ℚ
  y : ℚ
  w : ℚ
  h : ℚ
  ca : ℚ
  sa : ℚ
  deriving DecidableEq

/-- The four corners computed by getCorners inside rectsOverlap. -/
structure Corners where
  p0 : ℚ × ℚ
  p1 : ℚ × ℚ
  p2 : ℚ × ℚ
  p3 : ℚ × ℚ
  deriving DecidableEq

/-- getCorners from rectsOverlap: centre plus rotated half-extent offsets. -/
def getCorners (r : Rect) : Corners :=
  let hw := r.w / 2
  let hh := r.h / 2
  { p0 := (r.x + r.ca * (-hw) - r.sa * (-hh), r.y + r.sa * (-hw) + r.ca * (-hh))
    p1 := (r.x + r.ca * hw - r.sa * (-hh), r.y + r.sa * hw + r.ca * (-hh))
    p2 := (r.x + r.ca * hw - r.sa * hh, r.y + r.sa * hw + r.ca * hh)
    p3 := (r.x + r.ca * (-hw) - r.sa * hh, r.y + r.sa * (-hw) + r.ca * hh) }

/-- Dot product of one corner with an axis, as in the source's project loop. -/
def dotAx (p : ℚ × ℚ) (ax ay : ℚ) : ℚ := p.1 * ax + p.2 * ay

/-- project from rectsOverlap: the (min, max) of the dot products of the
four corners with the axis.  The source folds the corner list starting
from plus and minus infinity; for the four-element corner list that fold
is this min/max. -/
def project (c : Corners) (ax ay : ℚ) : ℚ × ℚ :=
  (min (min (min (dotAx c.p0 ax ay) (dotAx c.p1 ax ay)) (dotAx c.p2 ax ay)) (dotAx c.p3 ax ay),
   max (max (max (dotAx c.p0 ax ay) (dotAx c.p1 ax ay)) (dotAx c.p2 ax ay)) (dotAx c.p3 ax ay))

/-- overlapOnAxis from rectsOverlap: intervals (min, max) fail to overlap
exactly when one ends before the other starts. -/
def overlapOnAxis (pa pb : ℚ × ℚ) : Bool :=
  !(decide (pa.2 < pb.1) || decide (pb.2 < pa.1))

/-- One iteration of rectsOverlap's axis loop: project both corner sets
onto the axis and test interval overlap. -/
def axisTest (A B : Corners) (ax ay : ℚ) : Bool :=
  overlapOnAxis (project A ax ay) (project B ax ay)

/-- First tested axis of rectsOverlap: corner A[1] minus corner A[0]. -/
def axisU (A : Corners) : ℚ × ℚ := (A.p1.1 - A.p0.1, A.p1.2 - A.p0.2)

/-- Second tested axis of rectsOverlap: corner A[3] minus corner A[0]. -/
def axisV (A : Corners) : ℚ × ℚ := (A.p3.1 - A.p0.1, A.p3.2 - A.p0.2)

/-- The projection intervals of the two corner sets on an axis intersect
(the propositional reading of overlapOnAxis). -/
def ProjOverlap (A B : Corners) (axv : ℚ × ℚ) : Prop :=
  (project B axv.1 axv.2).1 ≤ (project A axv.1 axv.2).2 ∧
  (project A axv.1 axv.2).1 ≤ (project B axv.1 axv.2).2

/-- rectsOverlap from the source: the two-axis separating-axis test using
only rectangle A's edge vectors.  The source divides each axis by
len = Math.hypot(axis) or 1 before projecting; dividing both projections
by the same positive length cannot change overlapOnAxis (lemma
axisTest_scale below), and for the zero axis the guard divides by one,
leaving the zero axis unchanged, so the normalisation step is dropped
here without changing the boolean result. -/
def rectsOverlap (ra rb : Rect) : Bool :=
  let A := getCorners ra
  let B := getCorners rb
  axisTest A B (axisU A).1 (axisU A).2 && axisTest A B (axisV A).1 (axisV A).2

/-! ## Randomization config and the obstacle stage of randomizeTrackLayout_ -/

/-- RANDOMIZATION config object (track.js). -/
structure RandomizationConfig where
  enable : Bool
  checkpointCount : ℕ
  checkpointRadius : ℚ
  checkpointMinSpacing : ℚ
  obstacleCount : ℕ
  wMin : ℚ
  wMax : ℚ
  hMin : ℚ
  hMax : ℚ
  obstacleAngleMax : ℚ
  margin : ℚ
  maxAttempts : ℕ
  deriving DecidableEq

def RANDOMIZATION : RandomizationConfig :=
  { enable := true
    checkpointCount := 6
    checkpointRadius := 35
    checkpointMinSpacing := 320
    obstacleCount := 9
    wMin := 100
    wMax := 160
    hMin := 18
    hMax := 26
    obstacleAngleMax := 0.4
    margin := 60
    maxAttempts := 2000 }

/-- The obstacle while-loop of randomizeTrackLayout_.  The candidate
list is the prefix of random draws the loop consumes (one rectangle per
attempt, assembled from the randRange calls); attemptsLeft is the number
of attempts still allowed by the attempts < maxAttempts guard.  The loop
is bounded by construction, by the attempt budget exactly as in the
source and additionally by the modelled prefix of the random stream. -/
def obstacleLoop : List Rect → ℕ → List Rect → List Rect
  | [], _, obs => obs
  | c :: rest, attemptsLeft, obs =>
    if obs.length < RANDOMIZATION.obstacleCount ∧ 0 < attemptsLeft then
      let okO := obs.all fun o => !rectsOverlap c o
      obstacleLoop rest (attemptsLeft - 1) (if okO then obs ++ [c] else obs)
    else obs

/-- The obstacle stage of randomizeTrackLayout_: runs the bounded
rejection-sampling loop and replaces the previous CURVED_BARRIERS array
only when the target count was reached exactly. -/
def randomizeObstacles (cands : List Rect) (prev : List Rect) : List Rect :=
  if !RANDOMIZATION.enable then prev
  else
    let obs := obstacleLoop cands RANDOMIZATION.maxAttempts []
    if obs.length = RANDOMIZATION.obstacleCount then obs else prev

/-! ## Checkpoints, start positions, and randomizeTurrets_ -/

/-- A checkpoint: centre and sensor radius (the CHECKPOINTS entries). -/
structure Checkpoint where
  x : ℚ
  y : ℚ
  r : ℚ
  deriving DecidableEq

/-- The default CHECKPOINTS array of track.js. -/
def CHECKPOINTS : List Checkpoint :=
  [⟨2100, 1500, 35⟩, ⟨2500, 1200, 35⟩, ⟨2000, 600, 35⟩,
   ⟨1000, 300, 35⟩, ⟨400, 1000, 35⟩, ⟨1100, 1600, 35⟩]

/-- A fixed car spawn point (the START_POSITIONS entries). -/
structure StartPosition where
  x : ℚ
  y : ℚ
  angle : ℚ
  deriving DecidableEq

/-- The START_POSITIONS array of track.js. -/
def START_POSITIONS : List StartPosition := [⟨600, 500, 0⟩, ⟨640, 500, 0⟩]

/-- TURRET_CONFIG object (track.js). -/
structure TurretConfig where
  count : ℕ
  triggerRadius : ℚ
  forceRadius : ℚ
  sprayRadius : ℚ
  minSpacing : ℚ
  margin : ℚ
  deriving DecidableEq

def TURRET_CONFIG : TurretConfig :=
  { count := 8
    triggerRadius := 450
    forceRadius := 1100
    sprayRadius := 120
    minSpacing := 750
    margin := 80 }

/-- A placed turret record as pushed by randomizeTurrets_. -/
structure Turret where
  x : ℚ
  y : ℚ
  angle : ℚ
  range : ℚ
  triggerRadius : ℚ
  sprayRadius : ℚ
  deriving DecidableEq

/-- Math.hypot(dx, dy) < r without the square root: for positive r this
is dx^2 + dy^2 < r^2, and for r at most 0 it is false because hypot is
nonnegative. -/
def hypotLt (dx dy r : ℚ) : Bool :=
  decide (0 < r) && decide (dx ^ 2 + dy ^ 2 < r ^ 2)

/-- The while-loop of randomizeTurrets_: each attempt draws a candidate
position, rejects it if it is strictly closer than minSpacing to an
already accepted turret or strictly closer than 200 to a checkpoint
centre, and otherwise pushes the turret record.  The source performs the
two rejection scans in this order with early break; short-circuit Bool
conjunction of List.all gives the same result.  The candidate list is
the prefix of random draws consumed, attemptsLeft the remaining attempt
budget (maxAttempts = 1000 in the source).  Note the source has no scan
over START_POSITIONS. -/
def turretLoop (cps : List Checkpoint) : List (ℚ × ℚ) → ℕ → List Turret → List Turret
  | [], _, turrets => turrets
  | c :: rest, attemptsLeft, turrets =>
    if turrets.length < TURRET_CONFIG.count ∧ 0 < attemptsLeft then
      let tx := c.1
      let ty := c.2
      let ok := (turrets.all fun e => !hypotLt (tx - e.x) (ty - e.y) TURRET_CONFIG.minSpacing)
        && (cps.all fun cp => !hypotLt (tx - cp.x) (ty - cp.y) 200)
      turretLoop cps rest (attemptsLeft - 1)
        (if ok then
          turrets ++ [{ x := tx, y := ty, angle := 0,
                        range := TURRET_CONFIG.forceRadius,
                        triggerRadius := TURRET_CONFIG.triggerRadius,
                        sprayRadius := TURRET_CONFIG.sprayRadius }]
         else turrets)
    else turrets

/-- randomizeTurrets_: run the bounded loop (maxAttempts = 1000) and
overwrite the TURRETS array only when at least count turrets were
accepted; otherwise the previous array is kept. -/
def randomizeTurrets_ (cps : List Checkpoint) (cands : List (ℚ × ℚ))
    (prev : List Turret) : List Turret :=
  let turrets := turretLoop cps cands 1000 []
  if TURRET_CONFIG.count ≤ turrets.length then turrets else prev

/-- A concrete candidate list for randomizeTurrets_ whose first sample
is the first car spawn point (600, 500) and whose next seven samples are
mutually spaced and clear of all default checkpoints, so all eight are
accepted. -/
def spawnTurretCands : List (ℚ × ℚ) :=
  [(600, 500), (1650, 250), (2400, 250), (150, 1750),
   (900, 1750), (1650, 1000), (2400, 1000), (1650, 1750)]

/-! ## Race rules state machine (attachRaceRules and part 3, lap timing)

Collision bodies are identified by their Matter label strings; the
labelling convention (CAR i, CHECK_k, START, WALL, BOOST_PAD, GRIP_PAD)
is modelled as an inductive type, resolving the source's string prefix
parsing at construction time.  Timestamps are performance.now()
milliseconds, modelled as rationals. -/

/-- Decoded body labels. -/
inductive BodyLabel where
  | car (i : ℕ)
  | check (k : ℕ)
  | start
  | wall
  | boostPad
  | gripPad
  | turret (i : ℕ)
  | other
  deriving DecidableEq

inductive PadKind where
  | boost
  | grip
  deriving DecidableEq

/-- The callbacks attachRaceRules can fire, with their arguments. -/
inductive Callback where
  | onPad (car : ℕ) (kind : PadKind)
  | onCheckpoint (car : ℕ) (cp : ℕ)
  | onLap (car : ℕ) (lapTimeSec : ℚ)
  | onWallHit (car : ℕ)
  deriving DecidableEq

/-- Lap timing arrays (createLapState_). -/
structure LapState where
  lapCount : List ℕ
  lastLap : List ℚ
  bestLap : List ℚ
  lapStartMs : List ℚ
  deriving DecidableEq

/-- createLapState_: zeroed arrays, lap start stamped with the current
clock reading (passed in rather than read from performance.now()). -/
def createLapState_ (carsCount : ℕ) (now : ℚ) : LapState :=
  { lapCount := List.replicate carsCount 0
    lastLap := List.replicate carsCount 0
    bestLap := List.replicate carsCount 0
    lapStartMs := List.replicate carsCount now }

/-- completeLap_: computes the lap time in seconds, restarts the lap
clock, bumps the lap count, records the last lap, and lowers the best
lap (0 is the unset sentinel).  Returns the updated state and the lap
time, as the source returns lapTimeSec. -/
def completeLap_ (now : ℚ) (lapState : LapState) (index : ℕ) : LapState × ℚ :=
  let lapTimeSec := (now - lapState.lapStartMs.getD index 0) / 1000
  let best := lapState.bestLap.getD index 0
  ({ lapCount := lapState.lapCount.set index (lapState.lapCount.getD index 0 + 1)
     lastLap := lapState.lastLap.set index lapTimeSec
     bestLap :=
       if best = 0 ∨ lapTimeSec < best then lapState.bestLap.set index lapTimeSec
       else lapState.bestLap
     lapStartMs := lapState.lapStartMs.set index now }, lapTimeSec)

/-- The per-car race state closed over by attachRaceRules. -/
structure RaceState where
  passedCheckpoint : List Bool
  nextCheckpointIndex : List ℕ
  startCooldownMs : List ℚ
  penaltyUntil : List ℚ
  lapState : LapState
  deriving DecidableEq

/-- The state attachRaceRules builds for carsCount cars at attach time. -/
def initRaceState (carsCount : ℕ) (now : ℚ) : RaceState :=
  { passedCheckpoint := List.replicate carsCount false
    nextCheckpointIndex := List.replicate carsCount 0
    startCooldownMs := List.replicate carsCount 0
    penaltyUntil := List.replicate carsCount 0
    lapState := createLapState_ carsCount now }

/-- All state arrays have one slot per attached car. -/
def RaceState.Wf (n : ℕ) (st : RaceState) : Prop :=
  st.passedCheckpoint.length = n ∧ st.nextCheckpointIndex.length = n ∧
  st.startCooldownMs.length = n ∧ st.penaltyUntil.length = n ∧
  st.lapState.lapCount.length = n ∧ st.lapState.lastLap.length = n ∧
  st.lapState.bestLap.length = n ∧ st.lapState.lapStartMs.length = n

instance (n : ℕ) (st : RaceState) : Decidable (st.Wf n) := by
  unfold RaceState.Wf
  infer_instance

/-- The wall-hit branch at the end of the collision loop body: on a
car/WALL pair, stamp penaltyUntil with now + 1000 and fire onWallHit. -/
def wallStep (now : ℚ) (carLabel a b : BodyLabel) (idx : ℕ)
    (sc : RaceState × List Callback) : RaceState × List Callback :=
  if (a = carLabel ∧ b = BodyLabel.wall) ∨ (b = carLabel ∧ a = BodyLabel.wall) then
    ({ sc.1 with penaltyUntil := sc.1.penaltyUntil.set idx (now + 1000) },
      sc.2 ++ [Callback.onWallHit idx])
  else sc

/-- The body of the collisionStart handler's inner loop over car indices,
for one collision pair (a, b) and one car index idx: pads, then the
ordered checkpoint branch, then the start-line branch (whose cooldown
guard is a continue that also skips the wall branch), then the wall
branch.  Returns the updated state and the callbacks fired for this car,
in firing order. -/
def handleCarPair (numCheckpoints : ℕ) (now : ℚ) (a b : BodyLabel)
    (st : RaceState) (idx : ℕ) : RaceState × List Callback :=
  let carLabel := BodyLabel.car idx
  if a = carLabel ∨ b = carLabel then
    let padCbs : List Callback :=
      (if (a = carLabel ∧ b = BodyLabel.boostPad) ∨ (b = carLabel ∧ a = BodyLabel.boostPad) then
        [Callback.onPad idx PadKind.boost] else []) ++
      (if (a = carLabel ∧ b = BodyLabel.gripPad) ∨ (b = carLabel ∧ a = BodyLabel.gripPad) then
        [Callback.onPad idx PadKind.grip] else [])
    let otherLabel := if a = carLabel then b else a
    let afterCheck : RaceState × List Callback :=
      match otherLabel with
      | BodyLabel.check hitIndex =>
        if hitIndex = st.nextCheckpointIndex.getD idx 0 then
          ({ st with
              nextCheckpointIndex :=
                st.nextCheckpointIndex.set idx
                  ((st.nextCheckpointIndex.getD idx 0 + 1) % max 1 numCheckpoints)
              passedCheckpoint := st.passedCheckpoint.set idx true },
            padCbs ++ [Callback.onCheckpoint idx hitIndex])
        else (st, padCbs)
      | _ => (st, padCbs)
    if (a = carLabel ∧ b = BodyLabel.start) ∨ (b = carLabel ∧ a = BodyLabel.start) then
      if now < afterCheck.1.startCooldownMs.getD idx 0 then afterCheck
      else
        let cps := max 1 numCheckpoints
        let allPassed :=
          if cps = 1 then afterCheck.1.passedCheckpoint.getD idx false
          else decide (afterCheck.1.nextCheckpointIndex.getD idx 0 = 0)
            && afterCheck.1.passedCheckpoint.getD idx false
        if allPassed then
          let res := completeLap_ now afterCheck.1.lapState idx
          wallStep now carLabel a b idx
            ({ afterCheck.1 with
                lapState := res.1
                passedCheckpoint := afterCheck.1.passedCheckpoint.set idx false
                startCooldownMs := afterCheck.1.startCooldownMs.set idx (now + 1000) },
              afterCheck.2 ++ [Callback.onLap idx res.2])
        else wallStep now carLabel a b idx afterCheck
    else wallStep now carLabel a b idx afterCheck
  else (st, [])

/-- Processing of one collision pair by the collisionStart handler: the
loop over all attached car indices, threading the race state and
accumulating fired callbacks. -/
def collisionPairStep (carsCount numCheckpoints : ℕ) (now : ℚ) (a b : BodyLabel)
    (st : RaceState) : RaceState × List Callback :=
  (List.range carsCount).foldl
    (fun acc idx =>
      let r := handleCarPair numCheckpoints now a b acc.1 idx
      (r.1, acc.2 ++ r.2))
    (st, [])

/-- JavaScript comparison now < arr[index] where the array read may give
undefined: comparing a number with undefined is false. -/
def jsLtQ (x : ℚ) (o : Option ℚ) : Bool :=
  match o with
  | some v => decide (x < v)
  | none => false

/-- The snapshot object returned by the getLapInfo closure.  Fields read
from the state arrays are undefined (none) when the index is out of
range, exactly as JavaScript array indexing yields undefined. -/
structure LapInfo where
  lap : Option ℕ
  lastLap : Option ℚ
  bestLap : Option ℚ
  passedCheckpoint : Option Bool
  nextCheckpointIndex : Option ℕ
  isPenalized : Bool
  deriving DecidableEq

/-- getLapInfo closure returned by attachRaceRules (now is the
performance.now() reading the closure takes). -/
def getLapInfo (st : RaceState) (now : ℚ) (index : ℕ) : LapInfo :=
  { lap := st.lapState.lapCount.get? index
    lastLap := st.lapState.lastLap.get? index
    bestLap := st.lapState.bestLap.get? index
    passedCheckpoint := st.passedCheckpoint.get? index
    nextCheckpointIndex := st.nextCheckpointIndex.get? index
    isPenalized := jsLtQ now (st.penaltyUntil.get? index) }

/-- isPenalized closure returned by attachRaceRules. -/
def isPenalized (st : RaceState) (now : ℚ) (index : ℕ) : Bool :=
  jsLtQ now (st.penaltyUntil.get? index)

/-! The resetRace closure may write at any index, and a JavaScript
assignment past the end of an array extends it, filling the skipped
slots with holes that read back as undefined.  RaceState is the
hole-free view the collision handler maintains (it writes only indices
below the car count); the definitions below give the general array
image with explicit holes, the JavaScript write and read on it, and
resetRace on that image.  The bridge lemmas in the theorem section show
the image of a hole-free state answers queries exactly as getLapInfo
and isPenalized above. -/

/-- JavaScript array write arr[index] = v: within the array it
overwrites the slot; past the end it extends the array, filling the
skipped slots with holes (undefined) and putting v at index. -/
def jsSetExtend {α : Type} (l : List (Option α)) (index : ℕ) (v : α) : List (Option α) :=
  if index < l.length then l.set index (some v)
  else l ++ List.replicate (index - l.length) none ++ [some v]

/-- JavaScript array read arr[index]: undefined both past the end of the
array and at a hole. -/
def jsRead {α : Type} (l : List (Option α)) (index : ℕ) : Option α :=
  (l.get? index).getD none

/-- The lap timing arrays as JavaScript sees them once out-of-range
writes are possible: every slot is a stored value or a hole. -/
structure LapStateJs where
  lapCount : List (Option ℕ)
  lastLap : List (Option ℚ)
  bestLap : List (Option ℚ)
  lapStartMs : List (Option ℚ)
  deriving DecidableEq

/-- The race state arrays as JavaScript sees them once out-of-range
writes are possible. -/
structure RaceStateJs where
  passedCheckpoint : List (Option Bool)
  nextCheckpointIndex : List (Option ℕ)
  startCooldownMs : List (Option ℚ)
  penaltyUntil : List (Option ℚ)
  lapState : LapStateJs
  deriving DecidableEq

/-- A hole-free race state viewed as the array image JavaScript holds:
every slot present. -/
def RaceState.toJs (st : RaceState) : RaceStateJs :=
  { passedCheckpoint := st.passedCheckpoint.map some
    nextCheckpointIndex := st.nextCheckpointIndex.map some
    startCooldownMs := st.startCooldownMs.map some
    penaltyUntil := st.penaltyUntil.map some
    lapState :=
      { lapCount := st.lapState.lapCount.map some
        lastLap := st.lapState.lastLap.map some
        bestLap := st.lapState.bestLap.map some
        lapStartMs := st.lapState.lapStartMs.map some } }

/-- resetLapState_ with the clock reading passed in: four JavaScript
array writes, which extend the arrays when index is out of range. -/
def resetLapState_ (lapState : LapStateJs) (index : ℕ) (now : ℚ) : LapStateJs :=
  { lapCount := jsSetExtend lapState.lapCount index 0
    lastLap := jsSetExtend lapState.lastLap index 0
    bestLap := jsSetExtend lapState.bestLap index 0
    lapStartMs := jsSetExtend lapState.lapStartMs index now }

/-- resetRace closure returned by attachRaceRules: four JavaScript array
writes plus resetLapState_; within the car list they overwrite the
slots, and for an out-of-range index they silently extend the arrays
exactly as JavaScript assignment does. -/
def resetRace (st : RaceStateJs) (index : ℕ) (now : ℚ) : RaceStateJs :=
  { passedCheckpoint := jsSetExtend st.passedCheckpoint index false
    nextCheckpointIndex := jsSetExtend st.nextCheckpointIndex index 0
    startCooldownMs := jsSetExtend st.startCooldownMs index 0
    penaltyUntil := jsSetExtend st.penaltyUntil index 0
    lapState := resetLapState_ st.lapState index now }

/-- getLapInfo reading the array image (the same closure as getLapInfo
above, on a state that may contain holes). -/
def getLapInfoJs (st : RaceStateJs) (now : ℚ) (index : ℕ) : LapInfo :=
  { lap := jsRead st.lapState.lapCount index
    lastLap := jsRead st.lapState.lastLap index
    bestLap := jsRead st.lapState.bestLap index
    passedCheckpoint := jsRead st.passedCheckpoint index
    nextCheckpointIndex := jsRead st.nextCheckpointIndex index
    isPenalized := jsLtQ now (jsRead st.penaltyUntil index) }

/-- isPenalized reading the array image. -/
def isPenalizedJs (st : RaceStateJs) (now : ℚ) (index : ℕ) : Bool :=
  jsLtQ now (jsRead st.penaltyUntil index)

/-! ## Turret runtime (createTurretState_ and updateTurrets_)

This module works over the reals because the applied force values
contain Math.hypot square roots.  Car and turret body positions are the
position vectors Matter exposes; the source's defensive fallback from a
missing body position to the turret data coordinates is dead for Matter
bodies, which always expose a position.  Matter.Body.applyForce calls
are collected in an output list.  The random spray particle burst draws
its angles, distances and speeds from an injected stream, like the
candidate streams of the randomizers. -/

noncomputable section TurretTick

open Classical in
/-- JavaScript expression v or fallback: 0 is falsy, so a zero stored
radius falls back to the TURRET_CONFIG value. -/
def jsOrR (v fallbackV : ℝ) : ℝ := if v = 0 then fallbackV else v

/-- A cosmetic spray particle. -/
structure RParticle where
  x : ℝ
  y : ℝ
  life : ℤ
  maxLife : ℤ
  tx : ℝ
  ty : ℝ
  speed : ℝ

/-- Turret placement data as consumed by updateTurrets_ (real-valued). -/
structure RTurret where
  x : ℝ
  y : ℝ
  angle : ℝ
  range : ℝ
  triggerRadius : ℝ
  sprayRadius : ℝ

/-- Per-turret runtime state (createTurretState_).  The particles array
starts empty, so particles[i] is undefined (none) until the first spray
writes it. -/
structure TurretState where
  activeSprays : List Bool
  sprayEndTime : List ℝ
  particles : ℕ → Option (List RParticle)
  carsInTrigger : List Bool
  glowIntensity : List ℝ

/-- createTurretState_. -/
def createTurretState_ (turretCount : ℕ) : TurretState :=
  { activeSprays := List.replicate turretCount false
    sprayEndTime := List.replicate turretCount 0
    particles := fun _ => none
    carsInTrigger := List.replicate turretCount false
    glowIntensity := List.replicate turretCount 0 }

open Classical in
/-- The 25-particle random burst initialised at spray start: random
direction, distance within sprayRadius, and speed, drawn from the
injected stream (three draws per particle, as in the source). -/
def mkSprayParticles (tur : RTurret) (rand : ℕ → ℝ) : List RParticle :=
  (List.range 25).map fun p =>
    let randomAngle := rand (3 * p) * Real.pi * 2
    let dist := rand (3 * p + 1) * tur.sprayRadius
    { x := tur.x, y := tur.y, life := 40, maxLife := 40
      tx := tur.x + Real.cos randomAngle * dist
      ty := tur.y + Real.sin randomAngle * dist
      speed := 2 + rand (3 * p + 2) * 3 }

/-- A Matter.Body.applyForce effect recorded by updateTurrets_. -/
structure AppliedForce where
  car : ℕ
  fx : ℝ
  fy : ℝ

open Classical in
/-- updateTurrets_: one simulation tick.  For each turret in order:
detect whether any car is strictly inside the trigger radius (distance
zero excluded), update the edge-detection flag, start a 1000 ms spray on
a fresh entry when not already spraying, apply the distance-scaled
radial force to every car inside the force radius while the spray is
running, clear the spray once now reaches sprayEndTime, and otherwise
decay the glow.  Returns the updated state and the applyForce calls in
order. -/
def updateTurrets_ (now : ℝ) (ts0 : TurretState) (turretData : List RTurret)
    (turretBodies : List (ℝ × ℝ)) (carBodies : List (ℝ × ℝ))
    (rand : ℕ → ℕ → ℝ) : TurretState × List AppliedForce :=
  (List.range turretData.length).foldl
    (fun acc i =>
      match turretData.get? i, turretBodies.get? i with
      | some tur, some pos =>
        let ts := acc.1
        let turX := pos.1
        let turY := pos.2
        let triggerRadius := jsOrR tur.triggerRadius 450
        let forceRadius := jsOrR tur.range 1100
        let hasCarInTrigger := carBodies.any fun car =>
          let dist := Real.sqrt ((car.1 - turX) ^ 2 + (car.2 - turY) ^ 2)
          decide (dist ≤ triggerRadius) && decide (0 < dist)
        let wasInTrigger := ts.carsInTrigger.getD i false
        let ts1 := { ts with carsInTrigger := ts.carsInTrigger.set i hasCarInTrigger }
        let ts2 :=
          if hasCarInTrigger && !wasInTrigger && !(ts1.activeSprays.getD i false) then
            { ts1 with
                activeSprays := ts1.activeSprays.set i true
                sprayEndTime := ts1.sprayEndTime.set i (now + 1000)
                glowIntensity := ts1.glowIntensity.set i 1
                particles := fun j =>
                  if j = i then some (mkSprayParticles tur (rand i)) else ts1.particles j }
          else ts1
        if ts2.activeSprays.getD i false && decide (now < ts2.sprayEndTime.getD i 0) then
          let forces := (List.range carBodies.length).filterMap fun c =>
            match carBodies.get? c with
            | some car =>
              let dx := car.1 - turX
              let dy := car.2 - turY
              let dist := Real.sqrt (dx ^ 2 + dy ^ 2)
              if dist ≤ forceRadius ∧ 0 < dist then
                let forceScale := max 0.35 (1 - dist / forceRadius)
                let pushForce := 0.08 * forceScale
                some { car := c, fx := -(dx / dist) * pushForce, fy := -(dy / dist) * pushForce }
              else none
            | none => none
          let ts3 :=
            { ts2 with
                particles := fun j =>
                  if j = i then
                    (ts2.particles i).map fun parts =>
                      (parts.map fun pt => { pt with life := pt.life - 1 }).filter
                        fun pt => decide (0 < pt.life)
                  else ts2.particles j
                glowIntensity := ts2.glowIntensity.set i
                  (max 0 (1 - ((now - (ts2.sprayEndTime.getD i 0 - 1000)) / 1000) * 0.5)) }
          (ts3, acc.2 ++ forces)
        else if ts2.activeSprays.getD i false && decide (ts2.sprayEndTime.getD i 0 ≤ now) then
          ({ ts2 with
              activeSprays := ts2.activeSprays.set i false
              particles := fun j => if j = i then some [] else ts2.particles j
              glowIntensity := ts2.glowIntensity.set i 0 }, acc.2)
        else if !hasCarInTrigger then
          ({ ts2 with
              glowIntensity := ts2.glowIntensity.set i
                (max 0 (ts2.glowIntensity.getD i 0 - 0.05)) }, acc.2)
        else (ts2, acc.2)
      | _, _ => acc)
    (ts0, [])

/-- The turret of the force-direction scenario: placed at (600, 500)
with the default TURRET_CONFIG radii. -/
def bugTurret : RTurret :=
  { x := 600, y := 500, angle := 0, range := 1100, triggerRadius := 450, sprayRadius := 120 }

/-- Mid-spray runtime state for the force-direction scenario: one turret,
spraying until t = 500 ms, car already inside the trigger. -/
def bugTurretState : TurretState :=
  { activeSprays := [true]
    sprayEndTime := [500]
    particles := fun _ => none
    carsInTrigger := [true]
    glowIntensity := [1] }

end TurretTick

/-! ## Theorems -/

/-- overlapOnAxis holds exactly when the projection intervals intersect. -/
theorem overlapOnAxis_iff (pa pb : ℚ × ℚ) :
    overlapOnAxis pa pb = true ↔ pb.1 ≤ pa.2 ∧ pa.1 ≤ pb.2 := by
  unfold overlapOnAxis
  constructor
  · intro h
    simp only [Bool.not_eq_true', Bool.or_eq_false_iff, decide_eq_false_iff_not, not_lt] at h
    exact ⟨h.1, h.2⟩
  · intro h
    simp only [Bool.not_eq_true', Bool.or_eq_false_iff, decide_eq_false_iff_not, not_lt]
    exact ⟨h.1, h.2⟩

/-- Scaling an axis by a positive factor does not change axisTest; this is
why dropping the source's division by the positive hypot length in
rectsOverlap preserves the boolean result. -/
theorem axisTest_scale (A B : Corners) (ax ay t : ℚ) (ht : 0 < t) :
    axisTest A B (t * ax) (t * ay) = axisTest A B ax ay := by
  have hd : ∀ p : ℚ × ℚ, dotAx p (t * ax) (t * ay) = t * dotAx p ax ay := by
    intro p
    unfold dotAx
    ring
  have hproj : ∀ C : Corners,
      project C (t * ax) (t * ay) = (t * (project C ax ay).1, t * (project C ax ay).2) := by
    intro C
    unfold project
    simp only [hd]
    rw [mul_min_of_nonneg _ _ ht.le, mul_min_of_nonneg _ _ ht.le,
      mul_min_of_nonneg _ _ ht.le, mul_max_of_nonneg _ _ ht.le,
      mul_max_of_nonneg _ _ ht.le, mul_max_of_nonneg _ _ ht.le]
  unfold axisTest overlapOnAxis
  rw [hproj A, hproj B]
  simp only [mul_lt_mul_left ht]

/-- Projecting on the zero axis collapses both intervals to the point 0,
so the zero axis is never separating. -/
theorem axisTest_zero (A B : Corners) : axisTest A B 0 0 = true := by
  have hproj : ∀ C : Corners, project C 0 0 = (0, 0) := by
    intro C
    unfold project dotAx
    simp
  unfold axisTest
  rw [hproj A, hproj B]
  rfl

/-- C9: rectsOverlap projects both rectangles only onto the two axes
built from rectangle A's corners (A[1] - A[0] and A[3] - A[0]) and
returns true exactly when the projection intervals overlap on both of
those axes; a degenerate (zero-length) axis is treated as
non-separating, so it never causes a false result and the test reduces
to the remaining axis.  The embedding as a plain function of its
arguments witnesses purity. -/
theorem rectsOverlap_two_axis_sat (ra rb : Rect) :
    (rectsOverlap ra rb = true ↔
      ProjOverlap (getCorners ra) (getCorners rb) (axisU (getCorners ra)) ∧
      ProjOverlap (getCorners ra) (getCorners rb) (axisV (getCorners ra))) ∧
    (axisU (getCorners ra) = (0, 0) →
      rectsOverlap ra rb = axisTest (getCorners ra) (getCorners rb)
        (axisV (getCorners ra)).1 (axisV (getCorners ra)).2) ∧
    (axisV (getCorners ra) = (0, 0) →
      rectsOverlap ra rb = axisTest (getCorners ra) (getCorners rb)
        (axisU (getCorners ra)).1 (axisU (getCorners ra)).2) := by
  refine ⟨?_, ?_, ?_⟩
  · show (axisTest _ _ (axisU (getCorners ra)).1 (axisU (getCorners ra)).2 &&
      axisTest _ _ (axisV (getCorners ra)).1 (axisV (getCorners ra)).2) = true ↔ _
    rw [Bool.and_eq_true]
    unfold ProjOverlap axisTest
    rw [overlapOnAxis_iff, overlapOnAxis_iff]
  · intro h
    show (axisTest _ _ (axisU (getCorners ra)).1 (axisU (getCorners ra)).2 &&
      axisTest _ _ (axisV (getCorners ra)).1 (axisV (getCorners ra)).2) = _
    have h1 : (axisU (getCorners ra)).1 = 0 := by rw [h]
    have h2 : (axisU (getCorners ra)).2 = 0 := by rw [h]
    rw [h1, h2, axisTest_zero, Bool.true_and]
  · intro h
    show (axisTest _ _ (axisU (getCorners ra)).1 (axisU (getCorners ra)).2 &&
      axisTest _ _ (axisV (getCorners ra)).1 (axisV (getCorners ra)).2) = _
    have h1 : (axisV (getCorners ra)).1 = 0 := by rw [h]
    have h2 : (axisV (getCorners ra)).2 = 0 := by rw [h]
    rw [h1, h2, axisTest_zero, Bool.and_true]

/-- Witness for C9 at a concrete input: a zero-width rectangle has a
degenerate first axis, and rectsOverlap then equals the second axis
test alone. -/
theorem rectsOverlap_two_axis_sat_witness :
    axisU (getCorners ⟨0, 0, 0, 2, 1, 0⟩) = (0, 0) ∧
    rectsOverlap ⟨0, 0, 0, 2, 1, 0⟩ ⟨10, 10, 2, 2, 1, 0⟩ =
      axisTest (getCorners ⟨0, 0, 0, 2, 1, 0⟩) (getCorners ⟨10, 10, 2, 2, 1, 0⟩)
        (axisV (getCorners ⟨0, 0, 0, 2, 1, 0⟩)).1 (axisV (getCorners ⟨0, 0, 0, 2, 1, 0⟩)).2 := by
  have hax : axisU (getCorners (⟨0, 0, 0, 2, 1, 0⟩ : Rect)) = (0, 0) := by
    norm_num [axisU, getCorners, Prod.ext_iff]
  exact ⟨hax, (rectsOverlap_two_axis_sat ⟨0, 0, 0, 2, 1, 0⟩ ⟨10, 10, 2, 2, 1, 0⟩).2.1 hax⟩

/-- Invariant of the obstacle loop: the accumulator stays pairwise
non-overlapping (each accepted obstacle tested by rectsOverlap against
every earlier one, in the orientation the acceptance scan uses) and
never exceeds the target count. -/
theorem obstacleLoop_invariant (cands : List Rect) :
    ∀ (attemptsLeft : ℕ) (obs : List Rect),
      obs.Pairwise (fun a b => rectsOverlap b a = false) →
      obs.length ≤ RANDOMIZATION.obstacleCount →
      (obstacleLoop cands attemptsLeft obs).Pairwise (fun a b => rectsOverlap b a = false) ∧
      (obstacleLoop cands attemptsLeft obs).length ≤ RANDOMIZATION.obstacleCount := by
  induction cands with
  | nil =>
    intro al obs h1 h2
    exact ⟨h1, h2⟩
  | cons c rest ih =>
    intro al obs h1 h2
    show (obstacleLoop (c :: rest) al obs).Pairwise _ ∧ _
    rw [obstacleLoop]
    by_cases hcond : obs.length < RANDOMIZATION.obstacleCount ∧ 0 < al
    · rw [if_pos hcond]
      cases hok : (obs.all fun o => !rectsOverlap c o) with
      | true =>
        simp only [hok, if_true]
        refine ih (al - 1) (obs ++ [c]) ?_ ?_
        · rw [List.pairwise_append]
          refine ⟨h1, List.pairwise_singleton _ _, ?_⟩
          intro a ha b hb
          rw [List.mem_singleton] at hb
          subst hb
          have := List.all_eq_true.mp hok a ha
          rwa [Bool.not_eq_true'] at this
        · rw [List.length_append, List.length_singleton]
          omega
      | false =>
        simp only [hok, if_false]
        exact ih (al - 1) obs h1 h2
    · rw [if_neg hcond]
      exact ⟨h1, h2⟩

/-- C3: the obstacle randomizer terminates (the loop is bounded by its
attempt budget, which the embedding makes structural), and it either
leaves the previous obstacle set unchanged or commits exactly
obstacleCount (9) freshly sampled obstacles that are pairwise
non-overlapping under rectsOverlap as the acceptance scan applies it
(each accepted obstacle against every earlier one); a partial set of
1 to 8 obstacles is never committed. -/
theorem randomizeObstacles_all_or_nothing (cands : List Rect) (prev : List Rect) :
    randomizeObstacles cands prev = prev ∨
      ((randomizeObstacles cands prev).length = RANDOMIZATION.obstacleCount ∧
        (randomizeObstacles cands prev).Pairwise fun a b => rectsOverlap b a = false) := by
  have hinv := obstacleLoop_invariant cands RANDOMIZATION.maxAttempts []
    (List.Pairwise.nil) (Nat.zero_le _)
  unfold randomizeObstacles
  have hen : (!RANDOMIZATION.enable) = false := rfl
  rw [hen]
  simp only [Bool.false_eq_true, if_false]
  by_cases hL : (obstacleLoop cands RANDOMIZATION.maxAttempts []).length =
      RANDOMIZATION.obstacleCount
  · right
    rw [if_pos hL]
    exact ⟨hL, hinv.1⟩
  · left
    rw [if_neg hL]

/-- C7: completeLap_ stores the lap duration in lastLap and updates
bestLap to the minimum of the previous best (or the new lap time when no
best is set yet, 0 being the unset sentinel) and the new lap time; hence
a set best lap never increases.  In the concrete scenario of laps lasting
12 s, 9.5 s and 11 s the final best lap is 9.5 and the last lap is 11. -/
theorem completeLap_best_min :
    (∀ (now : ℚ) (ls : LapState) (i : ℕ), i < ls.lastLap.length → i < ls.bestLap.length →
      (completeLap_ now ls i).1.lastLap.getD i 0 = (completeLap_ now ls i).2 ∧
      (completeLap_ now ls i).1.bestLap.getD i 0 =
        (if ls.bestLap.getD i 0 = 0 then (completeLap_ now ls i).2
         else min (ls.bestLap.getD i 0) (completeLap_ now ls i).2) ∧
      (ls.bestLap.getD i 0 ≠ 0 →
        (completeLap_ now ls i).1.bestLap.getD i 0 ≤ ls.bestLap.getD i 0)) ∧
    ((completeLap_ 12000 (createLapState_ 1 0) 0).2 = 12 ∧
     (completeLap_ 21500 (completeLap_ 12000 (createLapState_ 1 0) 0).1 0).2 = 9.5 ∧
     (completeLap_ 32500
        (completeLap_ 21500 (completeLap_ 12000 (createLapState_ 1 0) 0).1 0).1 0).2 = 11 ∧
     (completeLap_ 32500
        (completeLap_ 21500 (completeLap_ 12000 (createLapState_ 1 0) 0).1 0).1
        0).1.bestLap.getD 0 0 = 9.5 ∧
     (completeLap_ 32500
        (completeLap_ 21500 (completeLap_ 12000 (createLapState_ 1 0) 0).1 0).1
        0).1.lastLap.getD 0 0 = 11) := by
  constructor
  · intro now ls i hlast hbest
    have hlast2 : (completeLap_ now ls i).1.lastLap.getD i 0 = (completeLap_ now ls i).2 := by
      simp only [completeLap_]
      simp [List.getD_eq_getElem?_getD, List.getElem?_set_self, hlast]
    have hmin : (completeLap_ now ls i).1.bestLap.getD i 0 =
        (if ls.bestLap.getD i 0 = 0 then (completeLap_ now ls i).2
         else min (ls.bestLap.getD i 0) (completeLap_ now ls i).2) := by
      simp only [completeLap_]
      by_cases hb : ls.bestLap.getD i 0 = 0
      · rw [if_pos (Or.inl hb), if_pos hb]
        simp [List.getD_eq_getElem?_getD, List.getElem?_set_self, hbest]
      · rw [if_neg hb]
        by_cases ht : (now - ls.lapStartMs.getD i 0) / 1000 < ls.bestLap.getD i 0
        · rw [if_pos (Or.inr ht)]
          rw [min_eq_right ht.le]
          simp [List.getD_eq_getElem?_getD, List.getElem?_set_self, hbest]
        · rw [if_neg (by push_neg; exact ⟨hb, le_of_not_lt ht⟩)]
          rw [min_eq_left (le_of_not_lt ht)]
    refine ⟨hlast2, hmin, ?_⟩
    intro hb
    rw [hmin, if_neg hb]
    exact min_le_left _ _
  · have s1 : completeLap_ 12000 (createLapState_ 1 0) 0 =
        ({ lapCount := [1], lastLap := [12], bestLap := [12], lapStartMs := [12000] }, 12) := by
      simp only [completeLap_, createLapState_]
      norm_num
    have s2 : completeLap_ 21500
        ({ lapCount := [1], lastLap := [12], bestLap := [12], lapStartMs := [12000] } :
          LapState) 0 =
        ({ lapCount := [2], lastLap := [9.5], bestLap := [9.5], lapStartMs := [21500] }, 9.5) := by
      simp only [completeLap_]
      norm_num
    have s3 : completeLap_ 32500
        ({ lapCount := [2], lastLap := [9.5], bestLap := [9.5], lapStartMs := [21500] } :
          LapState) 0 =
        ({ lapCount := [3], lastLap := [11], bestLap := [9.5], lapStartMs := [32500] }, 11) := by
      simp only [completeLap_]
      norm_num
    rw [s1]
    rw [s2]
    rw [s3]
    norm_num

/-- Witness for C7 at a concrete input: the first lap of the scenario. -/
theorem completeLap_best_min_witness :
    (completeLap_ 12000 (createLapState_ 1 0) 0).1.lastLap.getD 0 0 =
      (completeLap_ 12000 (createLapState_ 1 0) 0).2 :=
  (completeLap_best_min.1 12000 (createLapState_ 1 0) 0 (by norm_num [createLapState_])
    (by norm_num [createLapState_])).1

/-- C8 counterexample: with two attached cars, querying car index 5 does
not fail with any out-of-range condition; getLapInfo silently returns a
snapshot whose array-backed fields are all undefined and isPenalized
silently returns false, contradicting the claimed IndexOutOfRange
failure. -/
theorem out_of_range_query_silent :
    getLapInfo (initRaceState 2 0) 0 5 =
      { lap := none, lastLap := none, bestLap := none, passedCheckpoint := none,
        nextCheckpointIndex := none, isPenalized := false } ∧
    isPenalized (initRaceState 2 0) 0 5 = false := by
  constructor
  · simp [getLapInfo, initRaceState, createLapState_, jsLtQ, List.get?_len_le]
  · simp [isPenalized, initRaceState, createLapState_, jsLtQ, List.get?_len_le]

/-- Reading the image of a hole-free array is the plain array read. -/
theorem jsRead_map_some {α : Type} (l : List α) (i : ℕ) :
    jsRead (l.map some) i = l.get? i := by
  unfold jsRead
  rw [List.get?_map]
  cases l.get? i <;> rfl

/-- A JavaScript write is always read back at its own index, whether it
overwrote a slot or extended the array. -/
theorem jsRead_jsSetExtend_self {α : Type} (l : List (Option α)) (i : ℕ) (v : α) :
    jsRead (jsSetExtend l i v) i = some v := by
  unfold jsRead jsSetExtend
  by_cases h : i < l.length
  · rw [if_pos h, List.get?_set_eq_of_lt _ h]
    rfl
  · rw [if_neg h]
    have hlen : (l ++ List.replicate (i - l.length) none).length = i := by
      rw [List.length_append, List.length_replicate]
      omega
    rw [List.get?_append_right (by omega)]
    rw [hlen, Nat.sub_self]
    rfl

/-- A JavaScript write past the end extends the array up to its index. -/
theorem length_jsSetExtend_of_le {α : Type} (l : List (Option α)) (i : ℕ) (v : α)
    (h : l.length ≤ i) : (jsSetExtend l i v).length = i + 1 := by
  unfold jsSetExtend
  by_cases h2 : i < l.length
  · omega
  · rw [if_neg h2]
    rw [List.length_append, List.length_append, List.length_replicate,
      List.length_singleton]
    omega

/-- On the image of a hole-free state the array-reading closures answer
exactly as on the hole-free view. -/
theorem getLapInfoJs_toJs (st : RaceState) (now : ℚ) (index : ℕ) :
    getLapInfoJs st.toJs now index = getLapInfo st now index ∧
    isPenalizedJs st.toJs now index = isPenalized st now index := by
  unfold getLapInfoJs getLapInfo isPenalizedJs isPenalized RaceState.toJs
  simp only [jsRead_map_some]
  constructor
  · first
    | rfl
    | trivial
  · first
    | rfl
    | trivial

/-- C8 amended: for every car index outside the attached car list,
getLapInfo, resetRace and isPenalized do not fail with an
IndexOutOfRange condition; the calls silently proceed.  While the state
arrays still hold exactly one slot per attached car (no out-of-range
write has happened yet), getLapInfo returns a snapshot whose
array-backed fields are undefined and isPenalized returns false, both
on the hole-free view and on its array image; resetRace at the
out-of-range index silently extends the arrays past their old length,
after which getLapInfo at that index silently returns freshly zeroed
default data and isPenalized still returns false for nonnegative query
times. -/
theorem out_of_range_query_and_reset_silent (n i : ℕ) (now now2 : ℚ) (st : RaceState)
    (hw : st.Wf n) (hn : n ≤ i) (hq : 0 ≤ now2) :
    getLapInfo st now i =
      { lap := none, lastLap := none, bestLap := none, passedCheckpoint := none,
        nextCheckpointIndex := none, isPenalized := false } ∧
    isPenalized st now i = false ∧
    getLapInfoJs st.toJs now i = getLapInfo st now i ∧
    isPenalizedJs st.toJs now i = isPenalized st now i ∧
    getLapInfoJs (resetRace st.toJs i now) now2 i =
      { lap := some 0, lastLap := some 0, bestLap := some 0,
        passedCheckpoint := some false, nextCheckpointIndex := some 0,
        isPenalized := false } ∧
    isPenalizedJs (resetRace st.toJs i now) now2 i = false ∧
    (resetRace st.toJs i now).penaltyUntil.length = i + 1 := by
  obtain ⟨h1, h2, h3, h4, h5, h6, h7, h8⟩ := hw
  have g : ∀ {α : Type} (l : List α), l.length = n → l.get? i = none := by
    intro α l hl
    exact List.get?_len_le (by omega)
  have hjs : jsLtQ now2 (some (0:ℚ)) = false := decide_eq_false (not_lt.mpr hq)
  refine ⟨?_, ?_, (getLapInfoJs_toJs st now i).1, (getLapInfoJs_toJs st now i).2,
    ?_, ?_, ?_⟩
  · unfold getLapInfo jsLtQ
    rw [g _ h1, g _ h2, g _ h4, g _ h5, g _ h6, g _ h7]
  · unfold isPenalized jsLtQ
    rw [g _ h4]
  · unfold getLapInfoJs resetRace resetLapState_ RaceState.toJs
    simp only [jsRead_jsSetExtend_self]
    rw [hjs]
  · unfold isPenalizedJs resetRace RaceState.toJs
    simp only [jsRead_jsSetExtend_self]
    exact hjs
  · unfold resetRace RaceState.toJs
    exact length_jsSetExtend_of_le _ i 0 (by rw [List.length_map, h4]; exact hn)

/-- Witness for the amended C8 at a concrete input: two attached cars,
queried and reset at index 5. -/
theorem out_of_range_query_and_reset_silent_witness :
    getLapInfo (initRaceState 2 0) 100 5 =
      { lap := none, lastLap := none, bestLap := none, passedCheckpoint := none,
        nextCheckpointIndex := none, isPenalized := false } ∧
    isPenalized (initRaceState 2 0) 100 5 = false ∧
    getLapInfoJs (initRaceState 2 0).toJs 100 5 = getLapInfo (initRaceState 2 0) 100 5 ∧
    isPenalizedJs (initRaceState 2 0).toJs 100 5 = isPenalized (initRaceState 2 0) 100 5 ∧
    getLapInfoJs (resetRace (initRaceState 2 0).toJs 5 100) 200 5 =
      { lap := some 0, lastLap := some 0, bestLap := some 0,
        passedCheckpoint := some false, nextCheckpointIndex := some 0,
        isPenalized := false } ∧
    isPenalizedJs (resetRace (initRaceState 2 0).toJs 5 100) 200 5 = false ∧
    (resetRace (initRaceState 2 0).toJs 5 100).penaltyUntil.length = 6 :=
  out_of_range_query_and_reset_silent 2 5 100 200 (initRaceState 2 0)
    (by refine ⟨?_, ?_, ?_, ?_, ?_, ?_, ?_, ?_⟩ <;> simp [initRaceState, createLapState_])
    (by norm_num) (by norm_num)

/-- A collision pair that does not involve car j leaves car j's pass of
the handler body without effect. -/
theorem handleCarPair_not_involved (N : ℕ) (now : ℚ) (a b : BodyLabel) (st : RaceState)
    (j : ℕ) (ha : a ≠ BodyLabel.car j) (hb : b ≠ BodyLabel.car j) :
    handleCarPair N now a b st j = (st, []) := by
  unfold handleCarPair
  rw [if_neg]
  push_neg
  exact ⟨ha, hb⟩

/-- Folding the handler body over car indices that are all unaffected by
the pair changes nothing. -/
theorem foldl_handle_noop (N : ℕ) (now : ℚ) (a b : BodyLabel) (l : List ℕ)
    (hno : ∀ j ∈ l, ∀ st0 : RaceState, handleCarPair N now a b st0 j = (st0, []))
    (st : RaceState) (acc : List Callback) :
    l.foldl (fun acc2 idx =>
      let r := handleCarPair N now a b acc2.1 idx
      (r.1, acc2.2 ++ r.2)) (st, acc) = (st, acc) := by
  induction l generalizing st acc with
  | nil => rfl
  | cons hd tl ih =>
    rw [List.foldl_cons]
    have hhd := hno hd (List.mem_cons_self hd tl) st
    simp only [hhd, List.append_nil]
    exact ih (fun j hj st0 => hno j (List.mem_cons_of_mem hd hj) st0) st acc

/-- When exactly one car index in the loop list is affected by the pair,
the whole loop is the single pass of the handler body for that car. -/
theorem foldl_handle_single (N : ℕ) (now : ℚ) (a b : BodyLabel) (i : ℕ) (l : List ℕ)
    (hmem : i ∈ l) (hnd : l.Nodup)
    (hno : ∀ j, j ≠ i → ∀ st0 : RaceState, handleCarPair N now a b st0 j = (st0, []))
    (st : RaceState) (acc : List Callback) :
    l.foldl (fun acc2 idx =>
      let r := handleCarPair N now a b acc2.1 idx
      (r.1, acc2.2 ++ r.2)) (st, acc) =
      ((handleCarPair N now a b st i).1, acc ++ (handleCarPair N now a b st i).2) := by
  induction l generalizing st acc with
  | nil => cases hmem
  | cons hd tl ih =>
    rw [List.foldl_cons]
    rcases List.mem_cons.mp hmem with hhd | htl
    · subst hhd
      have hni : i ∉ tl := (List.nodup_cons.mp hnd).1
      exact foldl_handle_noop N now a b tl
        (fun j hj st0 => hno j (fun hji => hni (hji ▸ hj)) st0) _ _
    · have hne : hd ≠ i := by
        intro hEq
        exact (List.nodup_cons.mp hnd).1 (hEq ▸ htl)
      rw [hno hd hne st]
      simp only [List.append_nil]
      exact ih htl (List.nodup_cons.mp hnd).2 st acc

/-- collisionPairStep for a pair involving exactly car i collapses to the
single handler pass for car i. -/
theorem collisionPairStep_single (n N : ℕ) (now : ℚ) (a b : BodyLabel) (i : ℕ)
    (st : RaceState) (hi : i < n)
    (hno : ∀ j, j ≠ i → a ≠ BodyLabel.car j ∧ b ≠ BodyLabel.car j) :
    collisionPairStep n N now a b st = handleCarPair N now a b st i := by
  unfold collisionPairStep
  rw [foldl_handle_single N now a b i (List.range n) (List.mem_range.mpr hi)
    (List.nodup_range n)
    (fun j hj st0 => handleCarPair_not_involved N now a b st0 j (hno j hj).1 (hno j hj).2)]
  rw [List.nil_append]

/-- Specialisation of the collapse lemma to a pair formed by car i and a
non-car body, in either order. -/
theorem collisionPairStep_car_other (n N : ℕ) (now : ℚ) (st : RaceState) (i : ℕ)
    (x : BodyLabel) (hi : i < n) (hx : ∀ j, x ≠ BodyLabel.car j) :
    collisionPairStep n N now (BodyLabel.car i) x st =
      handleCarPair N now (BodyLabel.car i) x st i ∧
    collisionPairStep n N now x (BodyLabel.car i) st =
      handleCarPair N now x (BodyLabel.car i) st i := by
  constructor
  · refine collisionPairStep_single n N now _ _ i st hi ?_
    intro j hj
    refine ⟨?_, hx j⟩
    intro h
    injection h with h2
    exact hj h2.symm
  · refine collisionPairStep_single n N now _ _ i st hi ?_
    intro j hj
    refine ⟨hx j, ?_⟩
    intro h
    injection h with h2
    exact hj h2.symm

/-- The handler pass for car i on a car/checkpoint pair: the ordered
gating branch. -/
theorem handleCarPair_check (N : ℕ) (now : ℚ) (i k : ℕ) (st : RaceState) (a b : BodyLabel)
    (hpair : (a = BodyLabel.car i ∧ b = BodyLabel.check k) ∨
             (a = BodyLabel.check k ∧ b = BodyLabel.car i)) :
    handleCarPair N now a b st i =
      if k = st.nextCheckpointIndex.getD i 0 then
        ({ st with
            nextCheckpointIndex := st.nextCheckpointIndex.set i
              ((st.nextCheckpointIndex.getD i 0 + 1) % max 1 N)
            passedCheckpoint := st.passedCheckpoint.set i true },
          [Callback.onCheckpoint i k])
      else (st, []) := by
  rcases hpair with ⟨ha, hb⟩ | ⟨ha, hb⟩ <;> subst ha <;> subst hb <;>
    simp [handleCarPair, wallStep]

/-- The handler pass for car i on a car/wall pair: stamp the penalty and
fire onWallHit. -/
theorem handleCarPair_wall (N : ℕ) (now : ℚ) (i : ℕ) (st : RaceState) (a b : BodyLabel)
    (hpair : (a = BodyLabel.car i ∧ b = BodyLabel.wall) ∨
             (a = BodyLabel.wall ∧ b = BodyLabel.car i)) :
    handleCarPair N now a b st i =
      ({ st with penaltyUntil := st.penaltyUntil.set i (now + 1000) },
        [Callback.onWallHit i]) := by
  rcases hpair with ⟨ha, hb⟩ | ⟨ha, hb⟩ <;> subst ha <;> subst hb <;>
    simp [handleCarPair, wallStep]

/-- The handler pass for car i on a car/start pair: the cooldown guard,
then lap completion when the ordered checkpoint cycle is finished. -/
theorem handleCarPair_start (N : ℕ) (now : ℚ) (i : ℕ) (st : RaceState) (a b : BodyLabel)
    (hpair : (a = BodyLabel.car i ∧ b = BodyLabel.start) ∨
             (a = BodyLabel.start ∧ b = BodyLabel.car i)) :
    handleCarPair N now a b st i =
      if now < st.startCooldownMs.getD i 0 then (st, [])
      else if (if max 1 N = 1 then st.passedCheckpoint.getD i false
               else decide (st.nextCheckpointIndex.getD i 0 = 0)
                 && st.passedCheckpoint.getD i false) then
        ({ st with
            lapState := (completeLap_ now st.lapState i).1
            passedCheckpoint := st.passedCheckpoint.set i false
            startCooldownMs := st.startCooldownMs.set i (now + 1000) },
          [Callback.onLap i (completeLap_ now st.lapState i).2])
      else (st, []) := by
  rcases hpair with ⟨ha, hb⟩ | ⟨ha, hb⟩ <;> subst ha <;> subst hb <;>
    simp [handleCarPair, wallStep]

/-- C1: on a collision-start between car i and the body labeled CHECK_k,
if k equals car i's next-expected checkpoint index the engine advances
that progress to (k + 1) mod N and fires onCheckpoint(i, k) exactly once
(the callback list is that singleton); otherwise the race state is
unchanged and no callback fires. -/
theorem checkpoint_order_gating (n N i k : ℕ) (now : ℚ) (st : RaceState) (a b : BodyLabel)
    (hi : i < n) (hN : 0 < N)
    (hpair : (a = BodyLabel.car i ∧ b = BodyLabel.check k) ∨
             (a = BodyLabel.check k ∧ b = BodyLabel.car i)) :
    (k = st.nextCheckpointIndex.getD i 0 →
      collisionPairStep n N now a b st =
        ({ st with
            nextCheckpointIndex := st.nextCheckpointIndex.set i ((k + 1) % N)
            passedCheckpoint := st.passedCheckpoint.set i true },
          [Callback.onCheckpoint i k])) ∧
    (k ≠ st.nextCheckpointIndex.getD i 0 →
      collisionPairStep n N now a b st = (st, [])) := by
  have hcol : collisionPairStep n N now a b st = handleCarPair N now a b st i := by
    rcases hpair with ⟨ha, hb⟩ | ⟨ha, hb⟩
    · subst ha
      subst hb
      exact (collisionPairStep_car_other n N now st i _ hi (by intro j; simp)).1
    · subst ha
      subst hb
      exact (collisionPairStep_car_other n N now st i _ hi (by intro j; simp)).2
  rw [hcol, handleCarPair_check N now i k st a b hpair]
  constructor
  · intro hk
    rw [if_pos hk, ← hk, Nat.max_eq_right hN]
  · intro hk
    rw [if_neg hk]

/-- Witness for C1 at a concrete input: one car, six checkpoints; the
expected checkpoint 0 advances progress to 1 and fires the callback,
while checkpoint 4 is ignored. -/
theorem checkpoint_order_gating_witness :
    collisionPairStep 1 6 0 (BodyLabel.car 0) (BodyLabel.check 0) (initRaceState 1 0) =
      ({ initRaceState 1 0 with
          nextCheckpointIndex := [1], passedCheckpoint := [true] },
        [Callback.onCheckpoint 0 0]) ∧
    collisionPairStep 1 6 0 (BodyLabel.car 0) (BodyLabel.check 4) (initRaceState 1 0) =
      (initRaceState 1 0, []) := by
  constructor
  · have h := (checkpoint_order_gating 1 6 0 0 0 (initRaceState 1 0)
      (BodyLabel.car 0) (BodyLabel.check 0) (by norm_num) (by norm_num)
      (Or.inl ⟨rfl, rfl⟩)).1 (by simp [initRaceState])
    rw [h]
    simp [initRaceState, createLapState_]
  · exact (checkpoint_order_gating 1 6 0 4 0 (initRaceState 1 0)
      (BodyLabel.car 0) (BodyLabel.check 4) (by norm_num) (by norm_num)
      (Or.inl ⟨rfl, rfl⟩)).2 (by simp [initRaceState])

/-- C2: on a collision-start between car i and the start-line sensor,
the event is ignored entirely (no state change, no callback) whenever
now is before the cooldown stamp; otherwise a lap completes exactly when
car i's next-expected checkpoint index has wrapped to 0 and at least one
correctly ordered checkpoint was touched this lap, in which case exactly
one onLap(i, lapTime) fires with lapTime = (now - lapStart) / 1000
seconds, the cooldown is stamped now + 1000 ms, and a second start
crossing within those 1000 ms fires nothing further.  The hypothesis for
N = 1 is the reachable-state invariant that the only checkpoint index a
one-checkpoint track can expect is 0. -/
theorem start_line_lap_rules (n N i : ℕ) (now now2 : ℚ) (st : RaceState) (a b : BodyLabel)
    (hw : st.Wf n) (hi : i < n) (hN : 0 < N)
    (hN1 : N = 1 → st.nextCheckpointIndex.getD i 0 = 0)
    (hpair : (a = BodyLabel.car i ∧ b = BodyLabel.start) ∨
             (a = BodyLabel.start ∧ b = BodyLabel.car i)) :
    (now < st.startCooldownMs.getD i 0 → collisionPairStep n N now a b st = (st, [])) ∧
    (¬ now < st.startCooldownMs.getD i 0 →
      ((∃ t, Callback.onLap i t ∈ (collisionPairStep n N now a b st).2) ↔
        (st.nextCheckpointIndex.getD i 0 = 0 ∧ st.passedCheckpoint.getD i false = true)) ∧
      (st.nextCheckpointIndex.getD i 0 = 0 → st.passedCheckpoint.getD i false = true →
        collisionPairStep n N now a b st =
          ({ st with
              lapState := (completeLap_ now st.lapState i).1
              passedCheckpoint := st.passedCheckpoint.set i false
              startCooldownMs := st.startCooldownMs.set i (now + 1000) },
            [Callback.onLap i ((now - st.lapState.lapStartMs.getD i 0) / 1000)]) ∧
        (now2 < now + 1000 →
          (collisionPairStep n N now2 a b (collisionPairStep n N now a b st).1).2 = []))) := by
  obtain ⟨hw1, hw2, hw3, hw4, hw5, hw6, hw7, hw8⟩ := hw
  have hcol : ∀ (t : ℚ) (s : RaceState),
      collisionPairStep n N t a b s = handleCarPair N t a b s i := by
    intro t s
    rcases hpair with ⟨ha, hb⟩ | ⟨ha, hb⟩
    · subst ha
      subst hb
      exact (collisionPairStep_car_other n N t s i _ hi (by intro j; simp)).1
    · subst ha
      subst hb
      exact (collisionPairStep_car_other n N t s i _ hi (by intro j; simp)).2
  have hR : collisionPairStep n N now a b st =
      (if now < st.startCooldownMs.getD i 0 then (st, [])
       else if (if max 1 N = 1 then st.passedCheckpoint.getD i false
                else decide (st.nextCheckpointIndex.getD i 0 = 0)
                  && st.passedCheckpoint.getD i false) then
         ({ st with
             lapState := (completeLap_ now st.lapState i).1
             passedCheckpoint := st.passedCheckpoint.set i false
             startCooldownMs := st.startCooldownMs.set i (now + 1000) },
           [Callback.onLap i (completeLap_ now st.lapState i).2])
       else (st, [])) := by
    rw [hcol now st, handleCarPair_start N now i st a b hpair]
  constructor
  · intro h
    rw [hR, if_pos h]
  · intro h
    have hiff : ((if max 1 N = 1 then st.passedCheckpoint.getD i false
        else decide (st.nextCheckpointIndex.getD i 0 = 0)
          && st.passedCheckpoint.getD i false) = true) ↔
        (st.nextCheckpointIndex.getD i 0 = 0 ∧ st.passedCheckpoint.getD i false = true) := by
      by_cases hNe : N = 1
      · subst hNe
        rw [if_pos (show (1:ℕ) ⊔ 1 = 1 by norm_num)]
        constructor
        · intro hpass
          exact ⟨hN1 rfl, hpass⟩
        · intro hand
          exact hand.2
      · rw [Nat.max_eq_right hN, if_neg hNe]
        rw [Bool.and_eq_true, decide_eq_true_eq]
    constructor
    · rw [hR, if_neg h]
      cases hall : (if max 1 N = 1 then st.passedCheckpoint.getD i false
          else decide (st.nextCheckpointIndex.getD i 0 = 0)
            && st.passedCheckpoint.getD i false) with
      | true =>
        rw [if_pos rfl]
        rw [hall] at hiff
        constructor
        · intro _
          exact hiff.mp rfl
        · intro _
          exact ⟨(completeLap_ now st.lapState i).2, List.mem_singleton_self _⟩
      | false =>
        rw [if_neg (show ¬(false = true) from Bool.false_ne_true)]
        rw [hall] at hiff
        simp only [List.not_mem_nil, exists_false, false_iff]
        intro hcontr
        have : False := by
          have h2 := hiff.mpr hcontr
          exact Bool.false_ne_true h2
        exact this
    · intro h0 hp
      have hall : (if max 1 N = 1 then st.passedCheckpoint.getD i false
          else decide (st.nextCheckpointIndex.getD i 0 = 0)
            && st.passedCheckpoint.getD i false) = true := hiff.mpr ⟨h0, hp⟩
      constructor
      · rw [hR, if_neg h, if_pos hall]
        have hl : (completeLap_ now st.lapState i).2 =
            (now - st.lapState.lapStartMs.getD i 0) / 1000 := by
          simp only [completeLap_]
        rw [hl]
      · intro h2
        rw [hR, if_neg h, if_pos hall]
        rw [hcol now2 _, handleCarPair_start N now2 i _ a b hpair]
        have hcd : (({ st with
            lapState := (completeLap_ now st.lapState i).1
            passedCheckpoint := st.passedCheckpoint.set i false
            startCooldownMs := st.startCooldownMs.set i (now + 1000) } :
              RaceState), [Callback.onLap i (completeLap_ now st.lapState i).2]).1.startCooldownMs.getD i 0
            = now + 1000 := by
          show (st.startCooldownMs.set i (now + 1000)).getD i 0 = now + 1000
          rw [List.getD_eq_getElem?_getD, List.getElem?_set_self (by rw [hw3]; exact hi)]
          rfl
        rw [if_pos (by rw [hcd]; exact h2)]

/-- Witness for C2 at a concrete input: one car that has completed the
six-checkpoint cycle crosses the start line at t = 5000 ms; exactly one
onLap(0, 5) fires, and an immediate second crossing at t = 5500 ms fires
nothing. -/
theorem start_line_lap_rules_witness :
    (collisionPairStep 1 6 5000 (BodyLabel.car 0) BodyLabel.start
        { passedCheckpoint := [true], nextCheckpointIndex := [0],
          startCooldownMs := [0], penaltyUntil := [0],
          lapState := createLapState_ 1 0 }).2 = [Callback.onLap 0 5] ∧
    (collisionPairStep 1 6 5500 (BodyLabel.car 0) BodyLabel.start
      (collisionPairStep 1 6 5000 (BodyLabel.car 0) BodyLabel.start
        { passedCheckpoint := [true], nextCheckpointIndex := [0],
          startCooldownMs := [0], penaltyUntil := [0],
          lapState := createLapState_ 1 0 }).1).2 = [] := by
  have h := start_line_lap_rules 1 6 0 5000 5500
    { passedCheckpoint := [true], nextCheckpointIndex := [0],
      startCooldownMs := [0], penaltyUntil := [0],
      lapState := createLapState_ 1 0 }
    (BodyLabel.car 0) BodyLabel.start
    (by refine ⟨?_, ?_, ?_, ?_, ?_, ?_, ?_, ?_⟩ <;> simp [createLapState_])
    (by norm_num) (by norm_num) (fun hc => absurd hc (by norm_num))
    (Or.inl ⟨rfl, rfl⟩)
  have h2 := (h.2 (by norm_num [List.getD])).2 (by norm_num [List.getD])
    (by norm_num [List.getD])
  constructor
  · rw [h2.1]
    norm_num [createLapState_, List.getD]
  · exact h2.2 (by norm_num)

/-- C6: a collision-start between car i and a WALL-labeled body at time
T stamps penaltyUntil with T + 1000 ms and fires onWallHit(i) exactly
once, leaving every other race-state field (checkpoint progress,
cooldown, lap state) unchanged; afterwards isPenalized(i) is true for
every query time in [T, T + 1000) and false from T + 1000 on. -/
theorem wall_penalty_window (n N i : ℕ) (T : ℚ) (st : RaceState) (a b : BodyLabel)
    (hw : st.Wf n) (hi : i < n)
    (hpair : (a = BodyLabel.car i ∧ b = BodyLabel.wall) ∨
             (a = BodyLabel.wall ∧ b = BodyLabel.car i)) :
    collisionPairStep n N T a b st =
      ({ st with penaltyUntil := st.penaltyUntil.set i (T + 1000) },
        [Callback.onWallHit i]) ∧
    (∀ q : ℚ, T ≤ q → q < T + 1000 →
      isPenalized (collisionPairStep n N T a b st).1 q i = true) ∧
    (∀ q : ℚ, T + 1000 ≤ q →
      isPenalized (collisionPairStep n N T a b st).1 q i = false) := by
  obtain ⟨hw1, hw2, hw3, hw4, hw5, hw6, hw7, hw8⟩ := hw
  have hmain : collisionPairStep n N T a b st =
      ({ st with penaltyUntil := st.penaltyUntil.set i (T + 1000) },
        [Callback.onWallHit i]) := by
    rcases hpair with ⟨ha, hb⟩ | ⟨ha, hb⟩
    · subst ha
      subst hb
      rw [(collisionPairStep_car_other n N T st i _ hi (by intro j; simp)).1]
      exact handleCarPair_wall N T i st _ _ (Or.inl ⟨rfl, rfl⟩)
    · subst ha
      subst hb
      rw [(collisionPairStep_car_other n N T st i _ hi (by intro j; simp)).2]
      exact handleCarPair_wall N T i st _ _ (Or.inr ⟨rfl, rfl⟩)
  have hget : ((collisionPairStep n N T a b st).1.penaltyUntil).get? i = some (T + 1000) := by
    rw [hmain]
    exact List.get?_set_eq_of_lt _ (by rw [hw4]; exact hi)
  refine ⟨hmain, ?_, ?_⟩
  · intro q hq1 hq2
    unfold isPenalized jsLtQ
    rw [hget]
    exact decide_eq_true hq2
  · intro q hq
    unfold isPenalized jsLtQ
    rw [hget]
    exact decide_eq_false (not_lt.mpr hq)

/-- Witness for C6 at a concrete input: a wall hit at T = 0 penalises the
car at q = 500 but no longer at q = 1000. -/
theorem wall_penalty_window_witness :
    collisionPairStep 1 6 0 (BodyLabel.car 0) BodyLabel.wall (initRaceState 1 0) =
      ({ initRaceState 1 0 with penaltyUntil := [1000] }, [Callback.onWallHit 0]) ∧
    isPenalized (collisionPairStep 1 6 0 (BodyLabel.car 0) BodyLabel.wall
      (initRaceState 1 0)).1 500 0 = true ∧
    isPenalized (collisionPairStep 1 6 0 (BodyLabel.car 0) BodyLabel.wall
      (initRaceState 1 0)).1 1000 0 = false := by
  have h := wall_penalty_window 1 6 0 0 (initRaceState 1 0)
    (BodyLabel.car 0) BodyLabel.wall
    (by refine ⟨?_, ?_, ?_, ?_, ?_, ?_, ?_, ?_⟩ <;> simp [initRaceState, createLapState_])
    (by norm_num) (Or.inl ⟨rfl, rfl⟩)
  refine ⟨?_, ?_, ?_⟩
  · rw [h.1]
    norm_num [initRaceState, List.set]
  · exact h.2.1 500 (by norm_num) (by norm_num)
  · exact h.2.2 1000 (by norm_num)

/-- C10: a wall collision at time T2 for a car already inside a penalty
window overwrites the expiry with T2 + 1000 ms (the window restarts from
the latest hit, durations are never accumulated and the repeated hit is
not ignored) and fires onWallHit(i) again. -/
theorem wall_penalty_overwrite (n N i : ℕ) (T2 : ℚ) (st : RaceState) (a b : BodyLabel)
    (hw : st.Wf n) (hi : i < n)
    (hpen : T2 < st.penaltyUntil.getD i 0)
    (hpair : (a = BodyLabel.car i ∧ b = BodyLabel.wall) ∨
             (a = BodyLabel.wall ∧ b = BodyLabel.car i)) :
    (collisionPairStep n N T2 a b st).1.penaltyUntil.getD i 0 = T2 + 1000 ∧
    (collisionPairStep n N T2 a b st).2 = [Callback.onWallHit i] := by
  obtain ⟨hw1, hw2, hw3, hw4, hw5, hw6, hw7, hw8⟩ := hw
  have hmain : collisionPairStep n N T2 a b st =
      ({ st with penaltyUntil := st.penaltyUntil.set i (T2 + 1000) },
        [Callback.onWallHit i]) := by
    rcases hpair with ⟨ha, hb⟩ | ⟨ha, hb⟩
    · subst ha
      subst hb
      rw [(collisionPairStep_car_other n N T2 st i _ hi (by intro j; simp)).1]
      exact handleCarPair_wall N T2 i st _ _ (Or.inl ⟨rfl, rfl⟩)
    · subst ha
      subst hb
      rw [(collisionPairStep_car_other n N T2 st i _ hi (by intro j; simp)).2]
      exact handleCarPair_wall N T2 i st _ _ (Or.inr ⟨rfl, rfl⟩)
  rw [hmain]
  constructor
  · show (st.penaltyUntil.set i (T2 + 1000)).getD i 0 = T2 + 1000
    rw [List.getD_eq_getElem?_getD, List.getElem?_set_self (by rw [hw4]; exact hi)]
    rfl
  · rfl

/-- Witness for C10 at a concrete input: a second wall hit at T2 = 100
while penalised until 500 restamps the expiry to 1100 and fires the
callback again. -/
theorem wall_penalty_overwrite_witness :
    (collisionPairStep 1 6 100 (BodyLabel.car 0) BodyLabel.wall
        { passedCheckpoint := [false], nextCheckpointIndex := [0],
          startCooldownMs := [0], penaltyUntil := [500],
          lapState := createLapState_ 1 0 }).1.penaltyUntil.getD 0 0 = 1100 ∧
    (collisionPairStep 1 6 100 (BodyLabel.car 0) BodyLabel.wall
        { passedCheckpoint := [false], nextCheckpointIndex := [0],
          startCooldownMs := [0], penaltyUntil := [500],
          lapState := createLapState_ 1 0 }).2 = [Callback.onWallHit 0] := by
  have h := wall_penalty_overwrite 1 6 0 100
    { passedCheckpoint := [false], nextCheckpointIndex := [0],
      startCooldownMs := [0], penaltyUntil := [500],
      lapState := createLapState_ 1 0 }
    (BodyLabel.car 0) BodyLabel.wall
    (by refine ⟨?_, ?_, ?_, ?_, ?_, ?_, ?_, ?_⟩ <;> simp [createLapState_])
    (by norm_num) (by norm_num [List.getD]) (Or.inl ⟨rfl, rfl⟩)
  constructor
  · rw [h.1]
    norm_num
  · exact h.2

/-- C4 (evaluation at the failing input): randomizeTurrets_ accepts a
turret exactly at the first car spawn point.  With the default
checkpoints and a candidate stream whose first draw is (600, 500)
followed by seven mutually spaced, checkpoint-clear draws, all eight are
accepted and committed, and turret 0 sits at distance 0 from
START_POSITIONS[0] (0 < triggerRadius, let alone triggerRadius plus any
buffer): the randomizer performs no spawn-point clearance scan. -/
theorem turret_accepted_at_spawn :
    (randomizeTurrets_ CHECKPOINTS spawnTurretCands []).get? 0 =
      some { x := 600, y := 500, angle := 0, range := 1100,
             triggerRadius := 450, sprayRadius := 120 } ∧
    START_POSITIONS.get? 0 = some { x := 600, y := 500, angle := 0 } ∧
    ((600 : ℚ) - 600) ^ 2 + ((500 : ℚ) - 500) ^ 2 < TURRET_CONFIG.triggerRadius ^ 2 := by
  refine ⟨?_, rfl, by norm_num [TURRET_CONFIG]⟩
  norm_num [randomizeTurrets_, spawnTurretCands, turretLoop, hypotLt, CHECKPOINTS,
    TURRET_CONFIG, List.all]

/-- C5 (evaluation at the failing input): while a turret at (600, 500) is
spraying (until t = 500 ms, queried at t = 0) and the only car sits at
(700, 500), i.e. 100 px to the +x side, the single applyForce call has
the claimed magnitude 0.08 * max(0.35, 1 - 100/1100) = 4/55 but points
in the -x direction, toward the turret: its dot product with the outward
vector (car - turret) is negative, the push is inward, not outward. -/
theorem turret_force_points_inward :
    (updateTurrets_ 0 bugTurretState [bugTurret] [(600, 500)] [(700, 500)]
        (fun _ _ => 0)).2 = [⟨0, -(4 / 55), 0⟩] ∧
    (-(4 / 55) : ℝ) * ((700 : ℝ) - 600) < 0 := by
  have hs : Real.sqrt (((700:ℝ) - 600) ^ 2 + ((500:ℝ) - 500) ^ 2) = 100 := by
    rw [show ((700:ℝ) - 600) ^ 2 + ((500:ℝ) - 500) ^ 2 = 100 ^ 2 by norm_num]
    exact Real.sqrt_sq (by norm_num)
  have hr : List.range 1 = [0] := rfl
  constructor
  · simp only [updateTurrets_, bugTurretState, bugTurret, List.length_cons, List.length_nil,
      hr, List.foldl_cons, List.foldl_nil, List.get?_eq_getElem?, List.getElem?_cons_zero,
      List.getElem?_nil, List.any_cons, List.any_nil, List.getD, Option.getD_some,
      List.filterMap_cons, List.filterMap_nil, jsOrR, ite_self, hs]
    norm_num [hs, max_eq_right (by norm_num : (0.35:ℝ) ≤ 1 - 100/1100)]
  · norm_num

end Track
